import Mathlib

/-!
Shallow embedding of `carton/cart.py`: a session-persisted shopping cart.

Modelling conventions:
* Python `int` is `Int`; primary keys are `Nat`.
* The serialized record produced by `CartItem.to_dict` is a Python `dict`.
  Attribute access (`d.product_pk`) on a dict raises `AttributeError`,
  while subscript access (`d['quantity']`) returns the stored value; both
  are modelled by explicit accessors on `PyDictRecord` returning `Except`.
* The name `options` in the bodies of `Cart.remove` and `Cart.remove_single`
  is undefined in the Python source; evaluating it raises `NameError`,
  modelled by `undefined_options`.
* The session is modelled by the single slot the cart ever touches
  (the value under `session_key`, plus the `modified` flag).
* The product/option store (`get_product_queryset().get(pk=...)` /
  `get_option_queryset().get(pk=...)`) is modelled by a `Db` of partial
  lookup functions; a missing key raises (`doesNotExist`), matching
  Django's `DoesNotExist`.
* Mutating methods return `Option PyErr × Cart`: `(none, c')` when the
  call returns normally with post-state `c'`, and `(some e, c')` when it
  raises `e` with the object/session state `c'` at the moment of the raise.
-/

namespace Carton

/-- A Python exception, by class. -/
inductive PyErr where
  | valueError
  | attributeError
  | nameError
  | doesNotExist
deriving DecidableEq

/-- An external product entity: a unique key `pk` and a numeric `price`. -/
structure Product where
  pk : Nat
  price : Int
deriving DecidableEq

/-- An external option entity: a unique key `pk` and a numeric `price`. -/
structure Opt where
  pk : Nat
  price : Int
deriving DecidableEq

/-- `CartItem`: one line of the cart (product, options, quantity). -/
structure CartItem where
  product : Product
  options : List Opt
  quantity : Int
deriving DecidableEq

/-- The Python dict built by `CartItem.to_dict`:
`{'product_pk': ..., 'option_pks': [...], 'quantity': ...}`. -/
structure PyDictRecord where
  product_pk : Nat
  option_pks : List Nat
  quantity : Int
deriving DecidableEq

/-- The expression `d.product_pk` where `d` is a Python dict: attribute
access on a dict raises `AttributeError` (dict entries are not attributes). -/
def PyDictRecord.attrProduct_pk ( _d : PyDictRecord) : Except PyErr Nat :=
  .error .attributeError

/-- The expression `d.option_pks` where `d` is a Python dict: attribute
access on a dict raises `AttributeError`. -/
def PyDictRecord.attrOption_pks ( _d : PyDictRecord) : Except PyErr (List Nat) :=
  .error .attributeError

/-- The expression `d['quantity']`: subscript access on the dict succeeds
(the key is always present in records written by `to_dict`). -/
def PyDictRecord.itemQuantity (d : PyDictRecord) : Except PyErr Int :=
  .ok d.quantity

/-- `CartItem.to_dict`. -/
def CartItem.to_dict (it : CartItem) : PyDictRecord :=
  { product_pk := it.product.pk
  , option_pks := it.options.map Opt.pk
  , quantity := it.quantity }

/-- `CartItem.subtotal` = (product.price + sum of option prices) * quantity. -/
def CartItem.subtotal (it : CartItem) : Int :=
  (it.product.price + (it.options.map Opt.price).sum) * it.quantity

/-- The session, restricted to the one key the cart uses: the value stored
under `session_key` (`none` when the key is absent) and the modified flag. -/
structure Session where
  value : Option (List PyDictRecord)
  modified : Bool
deriving DecidableEq

/-- The external product/option store, as lookup-by-key functions
(the querysets with settings filters already applied). -/
structure Db where
  products : Nat → Option Product
  options : Nat → Option Opt

/-- `self.get_product_queryset().get(pk=pk)`: raises when no row matches. -/
def Db.getProduct (db : Db) (pk : Nat) : Except PyErr Product :=
  match db.products pk with
  | some p => .ok p
  | none => .error .doesNotExist

/-- `self.get_option_queryset().get(pk=pk)`: raises when no row matches. -/
def Db.getOpt (db : Db) (pk : Nat) : Except PyErr Opt :=
  match db.options pk with
  | some o => .ok o
  | none => .error .doesNotExist

/-- The cart state: the in-memory `_items_dict` list and the session it
holds a reference to. -/
structure Cart where
  _items_dict : List CartItem
  session : Session
deriving DecidableEq

/-- `Cart.items` property. -/
def Cart.items (c : Cart) : List CartItem :=
  c._items_dict

/-- `Cart.cart_serializable` property: each item via `to_dict`. -/
def Cart.cart_serializable (c : Cart) : List PyDictRecord :=
  c.items.map CartItem.to_dict

/-- Product resolution for one record during rebuild, with the
per-construction `products_cache` (an association list keyed by pk). -/
def resolveProduct (db : Db) (pcache : List (Nat × Product)) (product_pk : Nat) :
    Except PyErr (Product × List (Nat × Product)) :=
  match pcache.lookup product_pk with
  | some product => .ok (product, pcache)
  | none =>
    match db.getProduct product_pk with
    | .error e => .error e
    | .ok product => .ok (product, (product_pk, product) :: pcache)

/-- Option resolution loop during rebuild, threading `options_cache`;
resolved options are appended in order. -/
def resolveOptions (db : Db) :
    List (Nat × Opt) → List Nat → Except PyErr (List Opt × List (Nat × Opt))
  | ocache, [] => .ok ([], ocache)
  | ocache, option_pk :: rest =>
    match ocache.lookup option_pk with
    | some o =>
      match resolveOptions db ocache rest with
      | .error e => .error e
      | .ok (os, ocache') => .ok (o :: os, ocache')
    | none =>
      match db.getOpt option_pk with
      | .error e => .error e
      | .ok o =>
        match resolveOptions db ((option_pk, o) :: ocache) rest with
        | .error e => .error e
        | .ok (os, ocache') => .ok (o :: os, ocache')

/-- The body of the `try` block in `Cart.__init__` for one record of the
stored representation. Note the source reads `item.product_pk` and
`item.option_pks` by ATTRIBUTE access although `item` is a dict, and only
`item['quantity']` by subscript. -/
def rebuildRecord (db : Db) (pcache : List (Nat × Product)) (ocache : List (Nat × Opt))
    (item : PyDictRecord) :
    Except PyErr (CartItem × List (Nat × Product) × List (Nat × Opt)) :=
  match item.attrProduct_pk with
  | .error e => .error e
  | .ok product_pk =>
    match resolveProduct db pcache product_pk with
    | .error e => .error e
    | .ok (product, pcache') =>
      match item.attrOption_pks with
      | .error e => .error e
      | .ok option_pks =>
        match resolveOptions db ocache option_pks with
        | .error e => .error e
        | .ok (options, ocache') =>
          match item.itemQuantity with
          | .error e => .error e
          | .ok quantity => .ok (⟨product, options, quantity⟩, pcache', ocache')

/-- The rebuild loop of `Cart.__init__`: each record is attempted; on any
exception the record is skipped (`except Exception as e: print(e)`). -/
def rebuildLoop (db : Db) :
    List PyDictRecord → List CartItem → List (Nat × Product) → List (Nat × Opt) →
    List CartItem
  | [], acc, _, _ => acc
  | item :: rest, acc, pc, oc =>
    match rebuildRecord db pc oc item with
    | .ok (ci, pc', oc') => rebuildLoop db rest (acc ++ [ci]) pc' oc'
    | .error _ => rebuildLoop db rest acc pc oc

/-- `Cart.__init__(session, session_key)`: start from an empty list and, when
the session holds a stored representation, rebuild from it best-effort. -/
def Cart.init (db : Db) (session : Session) : Cart :=
  match session.value with
  | none => ⟨[], session⟩
  | some cart_representation => ⟨rebuildLoop db cart_representation [] [] [], session⟩

/-- Python `sorted` on a list of keys (insertion sort over `Nat`). -/
def insertSorted (n : Nat) : List Nat → List Nat
  | [] => [n]
  | m :: rest => if n ≤ m then n :: m :: rest else m :: insertSorted n rest

/-- Python `sorted` on a list of keys. -/
def pySorted (l : List Nat) : List Nat :=
  l.foldr insertSorted []

/-- The loop of `Cart.__index__`: scan `cart_serializable` (a list of Python
dicts) by position; `cart_items[i].product_pk` and `cart_items[i].option_pks`
are dict ATTRIBUTE accesses. Returns -1 if no entry matches. -/
def indexLoop (product : Product) (options : List Opt) :
    List PyDictRecord → Nat → Except PyErr Int
  | [], _ => .ok (-1)
  | d :: rest, i =>
    match d.attrProduct_pk with
    | .error e => .error e
    | .ok dpk =>
      if dpk = product.pk then
        match d.attrOption_pks with
        | .error e => .error e
        | .ok dopks =>
          if pySorted dopks = pySorted (options.map Opt.pk) then .ok (Int.ofNat i)
          else indexLoop product options rest (i + 1)
      else indexLoop product options rest (i + 1)

/-- `Cart.__index__(product, options)`. -/
def Cart.index (c : Cart) (product : Product) (options : List Opt) :
    Except PyErr Int :=
  indexLoop product options c.cart_serializable 0

/-- `Cart.update_session`: store the serialized cart under the session key
and mark the session modified. -/
def Cart.update_session (c : Cart) : Cart :=
  { c with session := { value := some c.cart_serializable, modified := true } }

/-- `self._items_dict[i].quantity += q` (list unchanged when out of range;
all source call sites use an in-range index). -/
def incQtyAt : List CartItem → Nat → Int → List CartItem
  | [], _, _ => []
  | it :: rest, 0, q => { it with quantity := it.quantity + q } :: rest
  | it :: rest, n + 1, q => it :: incQtyAt rest n q

/-- `self._items_dict[i].quantity = q`. -/
def setQtyAt : List CartItem → Nat → Int → List CartItem
  | [], _, _ => []
  | it :: rest, 0, q => { it with quantity := q } :: rest
  | it :: rest, n + 1, q => it :: setQtyAt rest n q

/-- `self._items_dict[i].quantity` read. -/
def qtyAt (l : List CartItem) (i : Nat) : Int :=
  (l[i]?.map CartItem.quantity).getD 0

/-- `Cart.add(product, options=[], quantity=1)`. -/
def Cart.add (c : Cart) (product : Product) (options : List Opt) (quantity : Int) :
    Option PyErr × Cart :=
  if quantity < 1 then (some .valueError, c)
  else
    match c.index product options with
    | .error e => (some e, c)
    | .ok item_index =>
      if item_index ≠ -1 then
        (none, Cart.update_session
          { c with _items_dict := incQtyAt c._items_dict item_index.toNat quantity })
      else
        (none, Cart.update_session
          { c with _items_dict := c._items_dict ++ [⟨product, options, quantity⟩] })

/-- The expression `options` in the bodies of `Cart.remove` and
`Cart.remove_single`: the name is undefined there, so evaluating it raises
`NameError`. -/
def undefined_options : Except PyErr (List Opt) :=
  .error .nameError

/-- `Cart.remove(product)`: calls `__index__(product, options)` with the
undefined name `options`. -/
def Cart.remove (c : Cart) (product : Product) : Option PyErr × Cart :=
  match undefined_options with
  | .error e => (some e, c)
  | .ok options =>
    match c.index product options with
    | .error e => (some e, c)
    | .ok item_index =>
      if item_index ≠ -1 then
        (none, Cart.update_session
          { c with _items_dict := c._items_dict.eraseIdx item_index.toNat })
      else (none, c)

/-- `Cart.remove_single(product)`: same undefined `options` name. -/
def Cart.remove_single (c : Cart) (product : Product) : Option PyErr × Cart :=
  match undefined_options with
  | .error e => (some e, c)
  | .ok options =>
    match c.index product options with
    | .error e => (some e, c)
    | .ok item_index =>
      if item_index ≠ -1 then
        if qtyAt c._items_dict item_index.toNat ≤ 1 then
          (none, Cart.update_session
            { c with _items_dict := c._items_dict.eraseIdx item_index.toNat })
        else
          (none, Cart.update_session
            { c with _items_dict := incQtyAt c._items_dict item_index.toNat (-1) })
      else (none, c)

/-- `Cart.clear()`. -/
def Cart.clear (c : Cart) : Cart :=
  Cart.update_session { c with _items_dict := [] }

/-- `Cart.set_quantity(product, quantity, options=[])`. -/
def Cart.set_quantity (c : Cart) (product : Product) (quantity : Int)
    (options : List Opt) : Option PyErr × Cart :=
  if quantity < 0 then (some .valueError, c)
  else
    match c.index product options with
    | .error e => (some e, c)
    | .ok item_index =>
      if item_index ≠ -1 then
        let items1 := setQtyAt c._items_dict item_index.toNat quantity
        if qtyAt items1 item_index.toNat < 1 then
          (none, Cart.update_session
            { c with _items_dict := items1.eraseIdx item_index.toNat })
        else
          (none, Cart.update_session { c with _items_dict := items1 })
      else (none, c)

/-- `Cart.count` property: sum of quantities. -/
def Cart.count (c : Cart) : Int :=
  (c.items.map CartItem.quantity).sum

/-- `Cart.unique_count` property: number of entries. -/
def Cart.unique_count (c : Cart) : Nat :=
  c._items_dict.length

/-- `Cart.is_empty` property. -/
def Cart.is_empty (c : Cart) : Bool :=
  c.unique_count = 0

/-- `Cart.total` property: sum of subtotals. -/
def Cart.total (c : Cart) : Int :=
  (c.items.map CartItem.subtotal).sum

/-- Spec invariant: every stored item has quantity at least 1. -/
def invQty (c : Cart) : Prop :=
  ∀ it ∈ c._items_dict, 1 ≤ it.quantity

/-- Spec invariant: the persisted session value mirrors the serialized form
of the in-memory items list and the session is flagged modified. -/
def mirrors (c : Cart) : Prop :=
  c.session.value = some c.cart_serializable ∧ c.session.modified = true

/-- Cart states reachable by construction from some session followed by a
sequence of successfully returning operations. -/
inductive Reachable (db : Db) : Cart → Prop where
  | init (s : Session) : Reachable db (Cart.init db s)
  | add {c c' : Cart} (p : Product) (o : List Opt) (q : Int) :
      Reachable db c → Cart.add c p o q = (none, c') → Reachable db c'
  | remove {c c' : Cart} (p : Product) :
      Reachable db c → Cart.remove c p = (none, c') → Reachable db c'
  | remove_single {c c' : Cart} (p : Product) :
      Reachable db c → Cart.remove_single c p = (none, c') → Reachable db c'
  | clear {c : Cart} :
      Reachable db c → Reachable db (Cart.clear c)
  | set_quantity {c c' : Cart} (p : Product) (q : Int) (o : List Opt) :
      Reachable db c → Cart.set_quantity c p q o = (none, c') → Reachable db c'

/-- Fixture: the spec example's `productA` with price 10. -/
def productA : Product :=
  ⟨1, 10⟩

/-- Fixture: a store resolving key 1 to `productA` and no options. -/
def db1 : Db :=
  ⟨fun pk => if pk = 1 then some productA else none, fun _ => none⟩

/-- Fixture: a fresh session with no stored cart. -/
def session0 : Session :=
  ⟨none, false⟩

/-- Fixture: a cart built over the fresh session. -/
def cart0 : Cart :=
  Cart.init db1 session0

/-- Fixture: `cart0` after `add(productA, [], 2)`. -/
def cart1 : Cart :=
  (cart0.add productA [] 2).snd

/-- Fixture: a stored record whose product key 99 no longer resolves. -/
def recordBad : PyDictRecord :=
  ⟨99, [], 1⟩

/-- Fixture: a stored record whose product key 1 resolves to `productA`. -/
def recordGood : PyDictRecord :=
  ⟨1, [], 2⟩

/-- Fixture: a session holding one unresolvable and one resolvable record. -/
def session7 : Session :=
  ⟨some [recordBad, recordGood], false⟩

theorem rebuildRecord_err (db : Db) (pc : List (Nat × Product)) (oc : List (Nat × Opt))
    (item : PyDictRecord) : rebuildRecord db pc oc item = .error .attributeError :=
  rfl

theorem rebuildLoop_fixed (db : Db) (l : List PyDictRecord) (acc : List CartItem)
    (pc : List (Nat × Product)) (oc : List (Nat × Opt)) :
    rebuildLoop db l acc pc oc = acc := by
  induction l with
  | nil => rfl
  | cons item rest ih => exact ih

theorem init_items (db : Db) (s : Session) : (Cart.init db s)._items_dict = [] := by
  obtain ⟨v, m⟩ := s
  cases v with
  | none => rfl
  | some l => exact rebuildLoop_fixed db l [] [] []

theorem init_inv (db : Db) (s : Session) : invQty (Cart.init db s) := by
  intro it hit
  rw [init_items] at hit
  cases hit

theorem index_ok_empty {c : Cart} {p : Product} {o : List Opt} {i : Int}
    (h : c.index p o = .ok i) : i = -1 ∧ c._items_dict = [] := by
  unfold Cart.index Cart.cart_serializable Cart.items at h
  cases hc : c._items_dict with
  | nil =>
    rw [hc] at h
    simp only [List.map_nil, indexLoop] at h
    exact ⟨(Except.ok.injEq .. ▸ h).symm, rfl⟩
  | cons d rest =>
    rw [hc] at h
    simp only [List.map_cons, indexLoop, PyDictRecord.attrProduct_pk] at h
    exact Except.noConfusion h

theorem mirrors_update_session (c : Cart) : mirrors (Cart.update_session c) :=
  ⟨rfl, rfl⟩

theorem remove_eq (c : Cart) (p : Product) :
    c.remove p = (some PyErr.nameError, c) :=
  rfl

theorem remove_single_eq (c : Cart) (p : Product) :
    c.remove_single p = (some PyErr.nameError, c) :=
  rfl

theorem add_preserves_inv {c c' : Cart} {p : Product} {o : List Opt} {q : Int}
    (hinv : invQty c) (h : Cart.add c p o q = (none, c')) : invQty c' := by
  unfold Cart.add at h
  by_cases hq : q < 1
  · rw [if_pos hq] at h
    exact absurd (congrArg Prod.fst h) (by simp)
  · rw [if_neg hq] at h
    cases hidx : c.index p o with
    | error e =>
      rw [hidx] at h
      exact absurd (congrArg Prod.fst h) (by simp)
    | ok i =>
      obtain ⟨hi, _⟩ := index_ok_empty hidx
      subst hi
      rw [hidx] at h
      replace h :
          (none,
            Cart.update_session
              { c with _items_dict := c._items_dict ++ [⟨p, o, q⟩] }) =
            ((none : Option PyErr), c') := h
      injection h with h1 h2
      subst h2
      intro it hit
      rcases List.mem_append.mp hit with hmem | hmem
      · exact hinv it hmem
      · rcases List.mem_singleton.mp hmem with rfl
        simpa using by omega

theorem set_quantity_preserves_inv {c c' : Cart} {p : Product} {q : Int} {o : List Opt}
    (hinv : invQty c) (h : Cart.set_quantity c p q o = (none, c')) : invQty c' := by
  unfold Cart.set_quantity at h
  by_cases hq : q < 0
  · rw [if_pos hq] at h
    exact absurd (congrArg Prod.fst h) (by simp)
  · rw [if_neg hq] at h
    cases hidx : c.index p o with
    | error e =>
      rw [hidx] at h
      exact absurd (congrArg Prod.fst h) (by simp)
    | ok i =>
      obtain ⟨hi, _⟩ := index_ok_empty hidx
      subst hi
      rw [hidx] at h
      replace h : ((none : Option PyErr), c) = ((none : Option PyErr), c') := h
      injection h with h1 h2
      subst h2
      exact hinv

theorem clear_inv (c : Cart) : invQty (Cart.clear c) := by
  intro it hit
  cases hit

/-- C1: the claim says a second `add` of the same (product, option-set)
increments the existing entry, with the example add(productA, [], 2) then
add(productA, [], 3) giving count 5 and total 50. In the code the identity
lookup `__index__` reads `cart_items[i].product_pk` off a dict, so the second
add raises AttributeError; the cart keeps count 2, unique_count 1, total 20. -/
theorem C1_second_add_raises_attribute_error :
    (cart0.add productA [] 2).fst = none ∧
    (cart1.add productA [] 3).fst = some PyErr.attributeError ∧
    (cart1.add productA [] 3).snd.count = 2 ∧
    cart1.unique_count = 1 ∧
    cart1.total = 20 := by
  decide

/-- C2: the claim says rebuilding a cart from the session after N successful
adds restores the item list when all keys resolve. With N = 1 (productA still
resolvable in `db1`), the rebuild loop's `item.product_pk` dict attribute
access raises per record and every record is skipped: the fresh cart is empty
while the original has one item. -/
theorem C2_roundtrip_loses_items :
    (cart0.add productA [] 2).fst = none ∧
    db1.products productA.pk = some productA ∧
    cart1._items_dict = [⟨productA, [], 2⟩] ∧
    (Cart.init db1 cart1.session)._items_dict = [] := by
  decide

/-- C3: the claim says remove(product, options) does an identity lookup using
explicitly supplied options and deletes the matching entry. The code's
`remove(self, product)` takes no options and evaluates the undefined name
`options`, so it raises NameError and deletes nothing, even when a matching
entry exists. -/
theorem C3_remove_raises_name_error :
    cart1.remove productA = (some PyErr.nameError, cart1) ∧
    cart1.unique_count = 1 := by
  decide

/-- C4: every mutating call that returns normally leaves the session value
equal to the serialized items list with the modified flag set; add and clear
always persist on success, while remove / remove_single / set_quantity either
persisted (identity lookup found a match) or left the whole state untouched
(lookup found nothing, no session write). -/
theorem C4_mutations_persist_session_mirror (c : Cart) (p : Product)
    (o : List Opt) (q : Int) :
    ((c.add p o q).fst = none → mirrors (c.add p o q).snd) ∧
    mirrors (Cart.clear c) ∧
    ((c.remove p).fst = none →
      mirrors (c.remove p).snd ∨ (c.remove p).snd = c) ∧
    ((c.remove_single p).fst = none →
      mirrors (c.remove_single p).snd ∨ (c.remove_single p).snd = c) ∧
    ((c.set_quantity p q o).fst = none →
      (c.index p o = .ok (-1) → (c.set_quantity p q o).snd = c) ∧
      (∀ i : Int, c.index p o = .ok i → i ≠ -1 →
        mirrors (c.set_quantity p q o).snd)) := by
  refine ⟨?_, mirrors_update_session _, ?_, ?_, ?_⟩
  · intro h
    unfold Cart.add at h ⊢
    by_cases hq : q < 1
    · rw [if_pos hq] at h
      exact absurd h (by simp)
    · rw [if_neg hq] at h ⊢
      cases hidx : c.index p o with
      | error e =>
        rw [hidx] at h
        simp at h
      | ok i =>
        by_cases hne : i ≠ -1
        · simp only [ne_eq]
          rw [if_pos hne]
          exact mirrors_update_session _
        · simp only [ne_eq]
          rw [if_neg hne]
          exact mirrors_update_session _
  · intro h
    rw [remove_eq] at h
    exact absurd h (by simp)
  · intro h
    rw [remove_single_eq] at h
    exact absurd h (by simp)
  · intro h
    constructor
    · intro hidx
      unfold Cart.set_quantity at h ⊢
      by_cases hq : q < 0
      · rw [if_pos hq] at h
        exact absurd h (by simp)
      · rw [if_neg hq] at h ⊢
        rw [hidx]
        rfl
    · intro i hidx hne
      unfold Cart.set_quantity at h ⊢
      by_cases hq : q < 0
      · rw [if_pos hq] at h
        exact absurd h (by simp)
      · rw [if_neg hq] at h ⊢
        rw [hidx]
        simp only [ne_eq]
        rw [if_pos hne]
        by_cases hlt :
            qtyAt (setQtyAt c._items_dict i.toNat q) i.toNat < 1
        · rw [if_pos hlt]
          exact mirrors_update_session _
        · rw [if_neg hlt]
          exact mirrors_update_session _

/-- C4 witness: on the empty cart `cart0`, add(productA, [], 1) completes and
the session mirrors the items; set_quantity(productA, 1, []) finds no match
and changes nothing. -/
theorem C4_witness :
    mirrors (cart0.add productA [] 1).snd ∧
    (cart0.set_quantity productA 1 []).snd = cart0 :=
  ⟨(C4_mutations_persist_session_mirror cart0 productA [] 1).1 (by decide),
   ((C4_mutations_persist_session_mirror cart0 productA [] 1).2.2.2.2
      (by decide)).1 (by rfl)⟩

/-- C5: the claim says set_quantity(p, 0) on a cart containing p removes the
entry and persists the removal. On `cart1` (which contains productA) the
identity lookup raises AttributeError before any mutation, so set_quantity
raises and the entry is still present, unpersisted. -/
theorem C5_set_quantity_zero_raises :
    cart1.set_quantity productA 0 [] = (some PyErr.attributeError, cart1) ∧
    cart1.unique_count = 1 := by
  decide

/-- C6: the claim says remove_single applied to an entry of quantity q
decrements it, q applications removing it. The code's
`remove_single(self, product)` evaluates the undefined name `options`, so
every call raises NameError and the entry's quantity never changes. -/
theorem C6_remove_single_raises_name_error :
    cart1.remove_single productA = (some PyErr.nameError, cart1) ∧
    (cart1.remove_single productA).snd.count = 2 := by
  decide

/-- C7: the claim says a rebuild skips only the records whose keys fail to
resolve and still rebuilds the rest. `session7` holds a record for deleted
key 99 and a record for key 1 that `db1` resolves; the rebuilt cart is empty:
the resolvable record was dropped too (the per-record dict attribute access
raises before any lookup). -/
theorem C7_rebuild_drops_resolvable_record :
    db1.products recordGood.product_pk = some productA ∧
    db1.products recordBad.product_pk = none ∧
    (Cart.init db1 session7)._items_dict = [] := by
  decide

/-- C8: add with quantity < 1 and set_quantity with quantity < 0 raise
ValueError immediately, returning the cart (items list and session) exactly
as it was: no partial mutation. -/
theorem C8_invalid_quantity_fails_fast (c : Cart) (p : Product)
    (o o' : List Opt) (q q' : Int) :
    (q < 1 → c.add p o q = (some PyErr.valueError, c)) ∧
    (q' < 0 → c.set_quantity p q' o' = (some PyErr.valueError, c)) := by
  constructor
  · intro h
    unfold Cart.add
    rw [if_pos h]
  · intro h
    unfold Cart.set_quantity
    rw [if_pos h]

/-- C8 witness: on the non-empty cart `cart1`, add with quantity 0 and
set_quantity with quantity -1 both raise ValueError and leave the cart
unchanged. -/
theorem C8_witness :
    cart1.add productA [] 0 = (some PyErr.valueError, cart1) ∧
    cart1.set_quantity productA (-1) [] = (some PyErr.valueError, cart1) :=
  ⟨(C8_invalid_quantity_fails_fast cart1 productA [] [] 0 (-1)).1 (by decide),
   (C8_invalid_quantity_fails_fast cart1 productA [] [] 0 (-1)).2 (by decide)⟩

/-- C9: in every cart state reachable by construction from a session followed
by successfully returning operations, every stored item has quantity at
least 1. -/
theorem C9_reachable_quantity_positive (db : Db) (c : Cart)
    (h : Reachable db c) : invQty c := by
  induction h with
  | init s => exact init_inv db s
  | add p o q hr heq ih => exact add_preserves_inv ih heq
  | remove p hr heq ih =>
    rw [remove_eq] at heq
    exact absurd (congrArg Prod.fst heq) (by simp)
  | remove_single p hr heq ih =>
    rw [remove_single_eq] at heq
    exact absurd (congrArg Prod.fst heq) (by simp)
  | clear hr ih => exact clear_inv _
  | set_quantity p q o hr heq ih => exact set_quantity_preserves_inv ih heq

/-- C9 witness: `cart1`, reached from the fresh session by one successful
add, satisfies the quantity invariant. -/
theorem C9_witness : invQty cart1 :=
  C9_reachable_quantity_positive db1 cart1
    (Reachable.add productA [] 2 (Reachable.init session0) (by decide))

/-- C10: whenever add, remove, remove_single or set_quantity raises (invalid
quantity, the NameError on the undefined `options`, or the AttributeError
inside the identity lookup), the returned state — items list and session —
is exactly the input state. -/
theorem C10_error_atomicity (c : Cart) (p : Product) (o : List Opt) (q : Int) :
    ((c.add p o q).fst ≠ none → (c.add p o q).snd = c) ∧
    ((c.remove p).fst ≠ none → (c.remove p).snd = c) ∧
    ((c.remove_single p).fst ≠ none → (c.remove_single p).snd = c) ∧
    ((c.set_quantity p q o).fst ≠ none → (c.set_quantity p q o).snd = c) := by
  refine ⟨?_, ?_, ?_, ?_⟩
  · intro h
    unfold Cart.add at h ⊢
    by_cases hq : q < 1
    · rw [if_pos hq]
    · rw [if_neg hq] at h ⊢
      cases hidx : c.index p o with
      | error e => rfl
      | ok i =>
        exfalso
        rw [hidx] at h
        apply h
        simp only [ne_eq]
        by_cases hne : i = -1
        · rw [if_neg (not_not_intro hne)]
        · rw [if_pos hne]
  · intro h
    rw [remove_eq]
  · intro h
    rw [remove_single_eq]
  · intro h
    unfold Cart.set_quantity at h ⊢
    by_cases hq : q < 0
    · rw [if_pos hq]
    · rw [if_neg hq] at h ⊢
      cases hidx : c.index p o with
      | error e => rfl
      | ok i =>
        exfalso
        rw [hidx] at h
        apply h
        simp only [ne_eq]
        by_cases hne : i = -1
        · rw [if_neg (not_not_intro hne)]
        · rw [if_pos hne]
          by_cases hlt :
              qtyAt (setQtyAt c._items_dict i.toNat q) i.toNat < 1
          · rw [if_pos hlt]
          · rw [if_neg hlt]

/-- C10 witness: the second add of the spec example raises (AttributeError in
the identity lookup) and leaves `cart1` exactly as it was. -/
theorem C10_witness : (cart1.add productA [] 3).snd = cart1 :=
  (C10_error_atomicity cart1 productA [] 3).1 (by decide)

end Carton
